import Mathlib

/-!
Verification development for the whatsapp-translator webhook service
(src/index.js).  The POST /webhook handler is embedded as a function that
produces the list of externally observable events of one request: the HTTP
200 acknowledgement, calls to the translation collaborator and calls to the
message-dispatch collaborator.  Collaborator behaviour and the HMAC-SHA256
primitive are parameters of the embedding; JavaScript exceptions are modelled
by explicit thrown-flags that follow the try/catch structure of the source.
-/

namespace WT

/-- Externally observable events of one webhook request: the HTTP 200
acknowledgement (src/index.js:126), a call to the translation collaborator
(src/index.js:249), and a call to the dispatch collaborator via sendMessage
(src/index.js:231 and 252).  Logging is not modelled. -/
inductive Event where
  | ack : Event
  | translateCall (text : String) : Event
  | sendCall (phoneNumberId : String) (recipient : String) (body : String) : Event
deriving DecidableEq

/-- The `text` object of a WhatsApp message; its `body` member may be absent. -/
structure TextObj where
  body : Option String
deriving DecidableEq

/-- One element of `value.messages`.  The sender field is called `from` in the
source; `from` is a reserved word in Lean, so it is named `from_` here.  It is
modelled as always present, which makes the `messages.*.from` validator of
src/index.js:122 trivially true in the model. -/
structure Message where
  from_ : String
  text : Option TextObj
deriving DecidableEq

/-- `value.metadata` (src/index.js:229 and 243). -/
structure Metadata where
  phone_number_id : String
deriving DecidableEq

/-- The `value` carried by a change.  Status objects are only ever logged by
the code (src/index.js:262), so they are modelled opaquely as strings. -/
structure Value where
  messages : Option (List Message)
  statuses : Option (List String)
  metadata : Option Metadata
deriving DecidableEq

/-- One element of `entry[i].changes`. -/
structure Change where
  value : Value
deriving DecidableEq

/-- One element of `entry`.  An absent `entry` member and an empty `entry`
array behave identically in the code paths modelled here (both make
`entry[0]` undefined), so both are modelled as the empty list. -/
structure Entry where
  changes : List Change
deriving DecidableEq

/-- The parsed JSON request body, restricted to the members the handler reads
or validates. -/
structure Payload where
  object : Option String
  entry : List Entry
deriving DecidableEq

/-- One inbound POST /webhook request, as seen by the handler after
body-parser has produced the parsed body. -/
structure Request where
  signatureHeader : Option String
  body : Payload
deriving DecidableEq

/-- Process configuration read from the environment at startup.  `debug`
models the DEBUG constant and is a field so that both of its values can be
reasoned about; the shipped value is `DEBUG` below. -/
structure Env where
  nodeEnv : String
  debug : Bool
  whatsappToken : String
  allowedPhoneNumbers : List String

/-- Behaviour of the two external collaborators for one request.
`translateResult t = none` models the translation call throwing;
`sendOk ... = false` models the WhatsApp API call failing, which makes
sendMessage throw (src/index.js:302 and 308). -/
structure Collab where
  translateResult : String → Option String
  sendOk : String → String → String → Bool

/-- src/index.js:13 — `const DEBUG = true; // Force debug mode regardless of
NODE_ENV`. -/
def DEBUG : Bool := true

/-- JavaScript `String.prototype.split(',')` on the model's character level:
split at every comma, keeping empty pieces. -/
def splitCommaAux : List Char → List Char → List String
  | [], acc => [String.mk acc.reverse]
  | c :: rest, acc =>
    if c = ',' then String.mk acc.reverse :: splitCommaAux rest []
    else splitCommaAux rest (c :: acc)

/-- Split an environment value at commas (src/index.js:94). -/
def splitComma (s : String) : List String := splitCommaAux s.data []

/-- src/index.js:96 — `num.replace(/\D/g, '')`: keep only decimal digits. -/
def cleanDigits (num : String) : String := String.mk (num.data.filter Char.isDigit)

/-- src/index.js:98 — `cleaned.startsWith('1') ? cleaned : '1' + cleaned`. -/
def ensureCountryCode (c : String) : String :=
  match c.data with
  | '1' :: _ => c
  | _ => "1" ++ c

/-- Normalization applied to one configured allow-list entry
(src/index.js:94-99). -/
def normalizePhone (num : String) : String := ensureCountryCode (cleanDigits num)

/-- src/index.js:94-99 — ALLOWED_PHONE_NUMBERS built from the environment
value: split at commas, then normalize each entry. -/
def mkAllowedPhoneNumbers (envVal : String) : List String :=
  (splitComma envVal).map normalizePhone

/-- src/index.js:226 — the guard of the unauthorized-sender branch:
`!ALLOWED_PHONE_NUMBERS.includes(from) && !DEBUG`.  The inbound sender is
compared as received; it is not normalized. -/
def unauthorizedBranch (allowed : List String) (debug : Bool) (fromN : String) : Bool :=
  !(allowed.contains fromN) && !debug

/-- All changes of all entries, in order: the instances enumerated by the
wildcard path `entry.*.changes.*` of the express-validator checks. -/
def allChanges (p : Payload) : List Change := (p.entry.map Entry.changes).flatten

/-- All messages of all changes, in order: the instances enumerated by the
wildcard path `entry.*.changes.*.value.messages.*`.  A missing `messages`
member contributes no instances (the wildcard matches nothing). -/
def allMessages (p : Payload) : List Message :=
  ((allChanges p).map (fun c => c.value.messages.getD [])).flatten

/-- The express-validator checks of src/index.js:118-123.  `exists()` only
requires the value to be defined, so an empty string passes; a wildcard path
that matches no instance is vacuously satisfied.  The `messages.*.from` check
is trivially true here because `Message.from_` is total in the model. -/
def validationOk (req : Request) : Bool :=
  req.body.object.isSome
  && (allMessages req.body).all (fun m => (m.text.bind TextObj.body).isSome)
  && (allChanges req.body).all (fun c => c.value.metadata.isSome)
  && req.signatureHeader.isSome

/-- Byte semantics of Node's `hash.update(bodyString)` (src/index.js:176):
a string argument is encoded as utf-8 by default. -/
def hmacStringUpdateBytes (s : String) : List Nat :=
  s.toUTF8.data.toList.map (fun b => b.toNat)

/-- Byte semantics of `Buffer.from(bodyString)` (src/index.js:182): a string
argument is encoded as utf-8 by default. -/
def bufferFromBytes (s : String) : List Nat :=
  s.toUTF8.data.toList.map (fun b => b.toNat)

/-- The HMAC-SHA256 hex-digest primitive, abstract in the embedding: it maps
a key and the byte sequence fed to `update` to a hex string. -/
def HmacFn : Type := String → List Nat → String

/-- src/index.js:174-177 — expectedSignature1: HMAC over the string fed to
`update` directly. -/
def expectedSignature1 (hmacHex : HmacFn) (key s : String) : String :=
  hmacHex key (hmacStringUpdateBytes s)

/-- src/index.js:180-183 — expectedSignature2: HMAC over `Buffer.from` of the
same string. -/
def expectedSignature2 (hmacHex : HmacFn) (key s : String) : String :=
  hmacHex key (bufferFromBytes s)

/-- src/index.js:189 — the header is accepted when it equals either expected
signature, each prefixed with "sha256=". -/
def signatureMatches (hmacHex : HmacFn) (key bodyString sig : String) : Bool :=
  (sig == "sha256=" ++ expectedSignature1 hmacHex key bodyString)
  || (sig == "sha256=" ++ expectedSignature2 hmacHex key bodyString)

/-- JSON string quoting as performed by JSON.stringify, on the fragment of
strings that contain no character requiring an escape sequence (all strings
handled concretely in this development are in that fragment). -/
def quoteJString (s : String) : String := "\"" ++ s ++ "\""

/-- Comma-join a list of already-rendered JSON fragments. -/
def joinComma : List String → String
  | [] => ""
  | [x] => x
  | x :: xs => x ++ "," ++ joinComma xs

/-- JSON.stringify of a `text` object. -/
def stringifyTextObj (t : TextObj) : String :=
  match t.body with
  | none => "\x7b\x7d"
  | some b => "\x7b" ++ quoteJString "body" ++ ":" ++ quoteJString b ++ "\x7d"

/-- JSON.stringify of one message object. -/
def stringifyMessage (m : Message) : String :=
  "\x7b" ++ quoteJString "from" ++ ":" ++ quoteJString m.from_
  ++ (match m.text with
      | none => ""
      | some t => "," ++ quoteJString "text" ++ ":" ++ stringifyTextObj t)
  ++ "\x7d"

/-- JSON.stringify of one `value` object; absent members are skipped, as
JSON.stringify skips undefined properties. -/
def stringifyValue (v : Value) : String :=
  "\x7b"
  ++ joinComma (
       (match v.messages with
        | none => []
        | some ms =>
          [quoteJString "messages" ++ ":[" ++ joinComma (ms.map stringifyMessage) ++ "]"])
       ++ (match v.statuses with
           | none => []
           | some sts =>
             [quoteJString "statuses" ++ ":[" ++ joinComma (sts.map quoteJString) ++ "]"])
       ++ (match v.metadata with
           | none => []
           | some md =>
             [quoteJString "metadata" ++ ":" ++ "\x7b" ++ quoteJString "phone_number_id"
              ++ ":" ++ quoteJString md.phone_number_id ++ "\x7d"]))
  ++ "\x7d"

/-- JSON.stringify of one change object. -/
def stringifyChange (c : Change) : String :=
  "\x7b" ++ quoteJString "value" ++ ":" ++ stringifyValue c.value ++ "\x7d"

/-- JSON.stringify of one entry object. -/
def stringifyEntry (e : Entry) : String :=
  "\x7b" ++ quoteJString "changes" ++ ":[" ++ joinComma (e.changes.map stringifyChange) ++ "]\x7d"

/-- src/index.js:171 — `JSON.stringify(req.body)` on the modelled payload
shape: the string the verifier feeds to the HMAC.  Note that this is a
re-serialization of the PARSED body, not the raw request bytes. -/
def stringifyPayload (p : Payload) : String :=
  "\x7b"
  ++ joinComma (
       (match p.object with
        | none => []
        | some o => [quoteJString "object" ++ ":" ++ quoteJString o])
       ++ [quoteJString "entry" ++ ":[" ++ joinComma (p.entry.map stringifyEntry) ++ "]"])
  ++ "\x7d"

/-- Outcome of the signature-verification block: continue processing, or
return early. -/
inductive SigOutcome where
  | proceed : SigOutcome
  | stop : SigOutcome
deriving DecidableEq

/-- src/index.js:154-206 — the signature-verification block.  It only runs
when NODE_ENV is "production" (and not the development test environment).
With DEBUG set, both a missing header and a mismatch are downgraded to a
logged warning and processing continues; without DEBUG they return early.
The catch at line 199 has no modelled throw source inside its try. -/
def signatureBlock (env : Env) (hmacHex : HmacFn) (req : Request) : SigOutcome :=
  if (env.nodeEnv == "production") && !(env.nodeEnv == "development") then
    match req.signatureHeader with
    | none => if env.debug then SigOutcome.proceed else SigOutcome.stop
    | some sig =>
      if signatureMatches hmacHex env.whatsappToken (stringifyPayload req.body) sig then
        SigOutcome.proceed
      else if env.debug then SigOutcome.proceed else SigOutcome.stop
  else SigOutcome.proceed

/-- src/index.js:234 — the fixed courtesy-reply body sent to unauthorized
senders. -/
def restrictedServiceText : String :=
  "Sorry, this translation service is currently restricted to authorized users only."

/-- src/index.js:276-310 — sendMessage: one dispatch call is made; when the
collaborator reports failure the function throws (it rethrows in its own
catch).  First component: emitted events; second: whether it threw. -/
def sendMessage (col : Collab) (pid rcpt msg : String) : List Event × Bool :=
  ([Event.sendCall pid rcpt msg], !(col.sendOk pid rcpt msg))

/-- src/index.js:241-259 — the inner try around the metadata access, the
translation call and the reply dispatch.  Every throw inside it is caught by
the catch at line 256, so only the emitted events are observable; a missing
metadata or text member throws before any call is made (both are precluded by
validation on reachable inputs). -/
def innerTry (col : Collab) (v : Value) (m : Message) (fromN : String) : List Event :=
  match v.metadata with
  | none => []
  | some md =>
    match m.text with
    | none => []
    | some t =>
      match t.body with
      | none => []
      | some msgBody =>
        Event.translateCall msgBody ::
          (match col.translateResult msgBody with
           | none => []
           | some tr =>
             (sendMessage col md.phone_number_id fromN ("Translated text: " ++ tr)).1)

/-- src/index.js:129-269 — the body of the outer try, run after the
acknowledgement.  First component: emitted events; second: whether an error
escaped to the outer catch.  Accessing `entry[0].changes`, `changes[0].value`,
`messages[0].from` on a missing/empty container throws (an empty `messages`
array is truthy in JavaScript, so it reaches the element access); a throw of
the courtesy sendMessage (src/index.js:231) is not inside the inner try and
also escapes to the outer catch. -/
def tryBody (env : Env) (col : Collab) (hmacHex : HmacFn) (req : Request) :
    List Event × Bool :=
  if !(validationOk req) then ([], false)
  else
    match signatureBlock env hmacHex req with
    | SigOutcome.stop => ([], false)
    | SigOutcome.proceed =>
      if req.body.object == some "whatsapp_business_account" then
        match req.body.entry with
        | [] => ([], true)
        | e :: _ =>
          match e.changes with
          | [] => ([], true)
          | c :: _ =>
            match c.value.messages with
            | some msgs =>
              match msgs with
              | [] => ([], true)
              | m :: _ =>
                if unauthorizedBranch env.allowedPhoneNumbers env.debug m.from_ then
                  match c.value.metadata with
                  | none => ([], true)
                  | some md => sendMessage col md.phone_number_id m.from_ restrictedServiceText
                else (innerTry col c.value m m.from_, false)
            | none =>
              match c.value.statuses with
              | some _ => ([], false)
              | none => ([], false)
      else ([], false)

/-- src/index.js:270-272 — the outer catch: any error reaching it is logged
and swallowed.  First component: emitted events; second: what escapes past
the handler. -/
def outerResult (env : Env) (col : Collab) (hmacHex : HmacFn) (req : Request) :
    List Event × Bool :=
  ((tryBody env col hmacHex req).1, false)

/-- src/index.js:124-273 — the POST /webhook handler: the 200 acknowledgement
(line 126) is emitted first, then the processing runs. -/
def postWebhook (env : Env) (col : Collab) (hmacHex : HmacFn) (req : Request) :
    List Event :=
  Event.ack :: (outerResult env col hmacHex req).1

/-- Is an event a call to one of the two external collaborators? -/
def isCollabCall : Event → Bool
  | Event.ack => false
  | Event.translateCall _ => true
  | Event.sendCall _ _ _ => true

/-- A JSON value of the flat fragment used to model signature hashing:
string values only. -/
inductive JVal where
  | str (s : String) : JVal
deriving DecidableEq

/-- A flat JSON object: an ordered list of string-valued members. -/
abbrev JObj : Type := List (String × JVal)

/-- Render the members of a flat JSON object the way JSON.stringify does. -/
def jobjFieldsStringify : JObj → String
  | [] => ""
  | [(k, JVal.str v)] => quoteJString k ++ ":" ++ quoteJString v
  | (k, JVal.str v) :: fs =>
    quoteJString k ++ ":" ++ quoteJString v ++ "," ++ jobjFieldsStringify fs

/-- JSON.stringify of a flat JSON object: no whitespace is emitted. -/
def jobjStringify (o : JObj) : String := "\x7b" ++ jobjFieldsStringify o ++ "\x7d"

/-- src/index.js:171 — the string the verifier hashes is JSON.stringify of
the PARSED request body, i.e. a re-serialization. -/
def signedBodyString (parsedBody : JObj) : String := jobjStringify parsedBody

/-- Modelled from the spec: "signature computation MUST use the exact bytes
as received over the wire ... The verifier takes raw bytes, never a
re-encoded object" — the bytes to be hashed are the raw request body
itself. -/
def signedBodyBytesSpec (rawBody : String) : String := rawBody

/-- Skip JSON insignificant whitespace. -/
def skipWs : List Char → List Char
  | [] => []
  | c :: rest =>
    if c = ' ' || c = '\t' || c = '\n' || c = '\r' then skipWs rest
    else c :: rest

/-- Read the remainder of a JSON string after its opening quote; strings with
escape sequences are outside the modelled fragment. -/
def parseStringBody : List Char → Option (String × List Char)
  | [] => none
  | c :: rest =>
    if c = '"' then some ("", rest)
    else if c = '\\' then none
    else (parseStringBody rest).map (fun p => (String.mk (c :: p.1.data), p.2))

/-- Read one JSON string, opening quote included. -/
def parseJString (cs : List Char) : Option (String × List Char) :=
  match cs with
  | '"' :: rest => parseStringBody rest
  | _ => none

/-- Read the members of a flat JSON object up to and including the closing
brace.  The fuel argument bounds the number of members. -/
def parseMembers : Nat → List Char → Option (JObj × List Char)
  | 0, _ => none
  | fuel + 1, cs =>
    match parseJString (skipWs cs) with
    | none => none
    | some (k, r1) =>
      match skipWs r1 with
      | ':' :: r2 =>
        match parseJString (skipWs r2) with
        | none => none
        | some (v, r3) =>
          match skipWs r3 with
          | ',' :: r4 =>
            (parseMembers fuel r4).map (fun p => ((k, JVal.str v) :: p.1, p.2))
          | '\x7d' :: r4 => some ([(k, JVal.str v)], r4)
          | _ => none
      | _ => none

/-- Modelled from the spec (body-parser, an external collaborator, is not in
src/): standard JSON parsing restricted to the flat fragment of objects with
string-valued members; inputs outside the fragment yield none.  On its
domain it agrees with JSON semantics: member order is kept and insignificant
whitespace is discarded. -/
def jsonParseFlat (s : String) : Option JObj :=
  match skipWs s.data with
  | '\x7b' :: rest =>
    match skipWs rest with
    | '\x7d' :: r2 => if (skipWs r2).isEmpty then some [] else none
    | cs =>
      match parseMembers (cs.length + 1) cs with
      | some (fs, r) => if (skipWs r).isEmpty then some fs else none
      | none => none
  | _ => none

/-- Cost model of the string comparison at src/index.js:189 (`===`): one unit
of running time per character position compared, stopping at the first
mismatch. -/
def charCmpCost : List Char → List Char → Nat
  | a :: as, b :: bs => if a = b then 1 + charCmpCost as bs else 1
  | _, _ => 0

/-- Running-time cost of `===` on two strings: strings of unequal length are
rejected without comparing characters; otherwise characters are compared
left to right until the first mismatch. -/
def strEqCost (s t : String) : Nat :=
  if s.length == t.length then charCmpCost s.data t.data else 0

/-- A concrete HMAC stand-in used for concrete evaluations. -/
def hmacFix : HmacFn := fun _ _ => "aa"

/-- Collaborators that succeed: translation returns "Hello", dispatch
succeeds. -/
def colOk : Collab :=
  { translateResult := fun _ => some "Hello", sendOk := fun _ _ _ => true }

/-- Collaborators whose translation call always fails. -/
def colNoTranslate : Collab :=
  { translateResult := fun _ => none, sendOk := fun _ _ _ => true }

/-- Metadata fixture. -/
def mdFix : Metadata := { phone_number_id := "123456789" }

/-- Text fixture. -/
def textHola : TextObj := { body := some "Hola" }

/-- Build a message. -/
def msgFrom (f : String) (t : Option TextObj) : Message := { from_ := f, text := t }

/-- Build a value with the fixture metadata. -/
def valueOf (ms : Option (List Message)) (sts : Option (List String)) : Value :=
  { messages := ms, statuses := sts, metadata := some mdFix }

/-- Build a single-entry single-change payload around a value. -/
def payloadOf (v : Value) : Payload :=
  { object := some "whatsapp_business_account"
    entry := [{ changes := [{ value := v }] }] }

/-- Build a request with a present (wrong-valued) signature header. -/
def reqOf (v : Value) : Request :=
  { signatureHeader := some "sha256=wrong", body := payloadOf v }

/-- Value fixtures for the concrete requests. -/
def valueHola : Value := valueOf (some [msgFrom "15551234567" (some textHola)]) none

/-- A message value from a sender that is not on the allow-list. -/
def value19998 : Value := valueOf (some [msgFrom "19998887777" (some textHola)]) none

/-- A message value whose text body is the empty string. -/
def valueEmptyText : Value :=
  valueOf (some [msgFrom "15551234567" (some { body := some "" })]) none

/-- A message value whose message has no text member. -/
def valueNoText : Value := valueOf (some [msgFrom "15551234567" none]) none

/-- A status-update value: statuses present, no messages. -/
def valueStatus : Value := valueOf none (some ["delivered"])

def reqHola : Request := reqOf valueHola
def req19998 : Request := reqOf value19998
def reqEmptyText : Request := reqOf valueEmptyText
def reqNoText : Request := reqOf valueNoText
def reqStatus : Request := reqOf valueStatus

/-- reqHola with the signature header absent. -/
def reqNoHeader : Request := { signatureHeader := none, body := payloadOf valueHola }

/-- The allow-list built from the environment value "15551234567". -/
def allowedFix : List String := mkAllowedPhoneNumbers "15551234567"

/-- The shipped production configuration: strict mode, DEBUG hardcoded
true. -/
def envProd : Env :=
  { nodeEnv := "production", debug := DEBUG, whatsappToken := "tok"
    allowedPhoneNumbers := allowedFix }

/-- A development configuration with the debug flag off, used to exercise the
branches DEBUG short-circuits. -/
def envDev : Env :=
  { nodeEnv := "development", debug := false, whatsappToken := "tok"
    allowedPhoneNumbers := allowedFix }

/-- A strict production configuration with the debug flag off: signature
enforcement active and the unauthorized-sender branch reachable. -/
def envProdStrict : Env :=
  { nodeEnv := "production", debug := false, whatsappToken := "tok"
    allowedPhoneNumbers := allowedFix }

/-- The unauthorized-sender request carrying a signature header that matches
the concrete HMAC stand-in, so the strict signature check passes. -/
def req19998Signed : Request :=
  { signatureHeader := some "sha256=aa", body := payloadOf value19998 }

/-- C1: for every request reaching the POST /webhook handler, whatever the
configuration and the collaborator behaviour, the 200 acknowledgement is the
event at position 0 of the handler trace, and every translation or dispatch
call sits at a strictly later position: no collaborator call happens before
the response is committed. -/
theorem ack_precedes_collaborator_calls (env : Env) (col : Collab) (hm : HmacFn)
    (req : Request) (i : Nat) (e : Event)
    (hi : (postWebhook env col hm req).get? i = some e)
    (hc : isCollabCall e = true) :
    (postWebhook env col hm req).get? 0 = some Event.ack ∧ 0 < i := by
  refine ⟨rfl, ?_⟩
  cases i with
  | zero =>
    have hack : (postWebhook env col hm req).get? 0 = some Event.ack := rfl
    rw [hack] at hi
    injection hi with h
    rw [← h] at hc
    simp [isCollabCall] at hc
  | succ n => exact Nat.succ_pos n

/-- Witness for C1 at a concrete request whose trace is
[ack, translateCall "Hola", sendCall ...]: the collaborator call at position 1
comes after the acknowledgement at position 0. -/
theorem ack_precedes_collaborator_calls_w :
    (postWebhook envDev colOk hmacFix reqHola).get? 0 = some Event.ack ∧ 0 < 1 :=
  ack_precedes_collaborator_calls envDev colOk hmacFix reqHola 1
    (Event.translateCall "Hola") (by decide) (by decide)

/-- C10: the two expected-signature computations of src/index.js:170-189 hash
the same byte sequence (Node encodes both a string passed to `update` and
`Buffer.from(string)` as utf-8), so the accept-if-either-matches disjunction
is equivalent to the single first-method check, for every HMAC primitive, key,
body string and header. -/
theorem dual_hmac_methods_equal (hm : HmacFn) (key s sig : String) :
    signatureMatches hm key s sig
      = (sig == "sha256=" ++ expectedSignature1 hm key s) := by
  simp [signatureMatches, expectedSignature1, expectedSignature2,
    hmacStringUpdateBytes, bufferFromBytes]

/-- C2: the verifier does not hash the raw request bytes; it hashes
JSON.stringify of the parsed body (src/index.js:171).  At the concrete raw
body with a space after the colon, the body parses, but the string the code
feeds to the HMAC is the spaceless re-serialization, which differs byte-wise
from the raw bytes the platform signs — so a signature computed over the
exact raw bytes spuriously mismatches. -/
theorem verifier_hashes_reserialized_body :
    jsonParseFlat "\x7b\"object\": \"x\"\x7d" = some [("object", JVal.str "x")]
    ∧ signedBodyString [("object", JVal.str "x")] = "\x7b\"object\":\"x\"\x7d"
    ∧ signedBodyString [("object", JVal.str "x")]
        ≠ signedBodyBytesSpec "\x7b\"object\": \"x\"\x7d" := by
  decide

/-- C3 counterexample: in the shipped strict (production) configuration, a
request whose x-hub-signature-256 header does not match either expected value
is NOT dropped — DEBUG is hardcoded true (src/index.js:13), so the pipeline
goes on to call the translation collaborator and dispatch a reply. -/
theorem strict_mode_mismatch_still_processes :
    signatureMatches hmacFix envProd.whatsappToken (stringifyPayload reqHola.body)
        "sha256=wrong" = false
    ∧ Event.translateCall "Hola" ∈ postWebhook envProd colOk hmacFix reqHola
    ∧ Event.sendCall "123456789" "15551234567" "Translated text: Hello"
        ∈ postWebhook envProd colOk hmacFix reqHola := by
  decide

/-- C3 (amended): in strict (production) mode a request with a missing
x-hub-signature-256 header performs no further processing — the header
`exists()` validator fails and the handler returns right after the
acknowledgement, with zero translation calls and zero outbound replies.  The
mismatched-header half of the original claim does not hold because DEBUG is
hardcoded true. -/
theorem strict_mode_missing_header_stops (env : Env) (col : Collab) (hm : HmacFn)
    (req : Request) (hprod : (env.nodeEnv == "production") = true)
    (hsig : req.signatureHeader = none) :
    postWebhook env col hm req = [Event.ack] := by
  simp [postWebhook, outerResult, tryBody, validationOk, hsig]

/-- Witness for the amended C3: the concrete header-less request in the
shipped production configuration produces the bare acknowledgement trace. -/
theorem strict_mode_missing_header_stops_w :
    postWebhook envProd colOk hmacFix reqNoHeader = [Event.ack] :=
  strict_mode_missing_header_stops envProd colOk hmacFix reqNoHeader (by decide) rfl

/-- C4 counterexample: the inbound sender is compared raw against the
normalized allow-list (src/index.js:226), and denial additionally requires
DEBUG to be off.  With allow-list entry "15551234567": (1) with the debug
flag off, sender "5551234567" (missing the leading country digit) takes the
unauthorized branch, i.e. it is NOT Allowed; (2) in the shipped configuration
(DEBUG = true), sender "19998887777" is NOT Denied: its message is translated
and no courtesy reply is sent. -/
theorem authorization_not_normalizing_inbound :
    mkAllowedPhoneNumbers "15551234567" = ["15551234567"]
    ∧ unauthorizedBranch (mkAllowedPhoneNumbers "15551234567") false "5551234567" = true
    ∧ Event.translateCall "Hola" ∈ postWebhook envProd colOk hmacFix req19998
    ∧ Event.sendCall "123456789" "19998887777" restrictedServiceText
        ∉ postWebhook envProd colOk hmacFix req19998 := by
  decide

/-- C4 (amended): only the allow-list is normalized (digit-stripping plus
country-code prefix, src/index.js:94-99); the inbound senderId is compared as
received, and the unauthorized branch is only reachable with the debug flag
off.  With allow-list ["15551234567"] and debug off, the exact sender
"15551234567" passes, while both "5551234567" (missing leading country digit)
and "19998887777" take the unauthorized branch; with debug on (the shipped
DEBUG) no sender takes it. -/
theorem authorization_raw_comparison :
    mkAllowedPhoneNumbers "15551234567" = ["15551234567"]
    ∧ unauthorizedBranch allowedFix false "5551234567" = true
    ∧ unauthorizedBranch allowedFix false "19998887777" = true
    ∧ unauthorizedBranch allowedFix false "15551234567" = false
    ∧ unauthorizedBranch allowedFix true "19998887777" = false := by
  decide

/-- C9 counterexample: the comparison at src/index.js:189 is plain string
equality, whose cost under the model stops at the first mismatching
character: against the same expected value "sha256=aa", a header differing at
position 0 costs 1 comparison while an equal-length header differing at
position 8 costs 9, so the running time does depend on the position of the
first differing byte. -/
theorem sig_compare_cost_depends_on_diff_position :
    strEqCost "sha256=aa" "Xha256=aa" = 1
    ∧ strEqCost "sha256=aa" "sha256=aX" = 9
    ∧ ("sha256=aa" : String) ≠ "Xha256=aa"
    ∧ ("sha256=aa" : String) ≠ "sha256=aX"
    ∧ ("Xha256=aa" : String).length = ("sha256=aX" : String).length := by
  decide

/-- C9 (amended): the comparison is an early-exit character-by-character
equality, not a constant-time one: on two strings that agree on a common
prefix p and then differ, the number of character comparisons performed is
exactly p.length + 1, i.e. it is determined by the position of the first
differing byte. -/
theorem sig_compare_early_exit_cost (p : List Char) (a b : Char)
    (as bs : List Char) (hne : a ≠ b) (hlen : as.length = bs.length) :
    charCmpCost (p ++ a :: as) (p ++ b :: bs) = p.length + 1
    ∧ strEqCost (String.mk (p ++ a :: as)) (String.mk (p ++ b :: bs))
        = p.length + 1 := by
  have hcost : ∀ q : List Char, charCmpCost (q ++ a :: as) (q ++ b :: bs)
      = q.length + 1 := by
    intro q
    induction q with
    | nil => simp [charCmpCost, hne]
    | cons c cs ih => simp [charCmpCost, ih]; omega
  refine ⟨hcost p, ?_⟩
  have hl : (String.mk (p ++ a :: as)).length = (String.mk (p ++ b :: bs)).length := by
    simp [String.length, hlen]
  simp only [strEqCost, hl, beq_self_eq_true, if_true]
  exact hcost p

/-- Witness for the amended C9: with shared prefix "sha" the cost is 4. -/
theorem sig_compare_early_exit_cost_w :
    charCmpCost (['s', 'h', 'a'] ++ ['0'] ++ []) (['s', 'h', 'a'] ++ ['1'] ++ [])
        = 3 + 1
    ∧ strEqCost (String.mk (['s', 'h', 'a'] ++ ['0'] ++ []))
        (String.mk (['s', 'h', 'a'] ++ ['1'] ++ [])) = 3 + 1 := by
  have h := sig_compare_early_exit_cost ['s', 'h', 'a'] '0' '1' [] []
    (by decide) rfl
  simpa using h

/-- C5: whenever the unauthorized-sender branch is taken for the first
message of a request (sender not an exact member of the allow-list and the
debug flag off), in any mode in which the signature block lets processing
proceed — production mode with a matching or debug-bypassed signature as
well as non-production mode — the whole handler trace is the acknowledgement
followed by exactly one dispatch call whose body is the fixed
restricted-service text: one courtesy reply, zero translation calls —
whatever the collaborator does (a courtesy-dispatch failure is swallowed by
the outer catch and changes no event). -/
theorem denied_sender_courtesy_reply (env : Env) (col : Collab) (hm : HmacFn)
    (req : Request) (e : Entry) (es : List Entry) (c : Change) (cs : List Change)
    (m : Message) (ms : List Message) (md : Metadata)
    (hval : validationOk req = true)
    (hsb : signatureBlock env hm req = SigOutcome.proceed)
    (hobj : req.body.object = some "whatsapp_business_account")
    (hent : req.body.entry = e :: es)
    (hch : e.changes = c :: cs)
    (hmsgs : c.value.messages = some (m :: ms))
    (hauth : unauthorizedBranch env.allowedPhoneNumbers env.debug m.from_ = true)
    (hmd : c.value.metadata = some md) :
    postWebhook env col hm req
      = [Event.ack, Event.sendCall md.phone_number_id m.from_ restrictedServiceText] := by
  simp [postWebhook, outerResult, tryBody, sendMessage,
    hval, hsb, hobj, hent, hch, hmsgs, hauth, hmd]

/-- Witness for C5: the concrete unauthorized sender "19998887777", in
production mode with debug off and a matching signature header, receives
exactly the courtesy reply and no translation. -/
theorem denied_sender_courtesy_reply_w :
    postWebhook envProdStrict colOk hmacFix req19998Signed
      = [Event.ack, Event.sendCall "123456789" "19998887777" restrictedServiceText] :=
  denied_sender_courtesy_reply envProdStrict colOk hmacFix req19998Signed
    { changes := [{ value := value19998 }] } [] { value := value19998 } []
    (msgFrom "19998887777" (some textHola)) [] mdFix
    (by decide) (by decide) rfl rfl rfl rfl (by decide) rfl

/-- No dispatch call occurs inside the inner try when every translation call
fails: the only event it can emit is the translation attempt itself. -/
theorem innerTry_no_send_on_translate_failure (col : Collab) (v : Value)
    (m : Message) (f : String) (hT : ∀ s, col.translateResult s = none)
    (pid rcpt b : String) : Event.sendCall pid rcpt b ∉ innerTry col v m f := by
  intro h
  unfold innerTry at h
  split at h
  · simp at h
  · split at h
    · simp at h
    · split at h
      · simp at h
      · rw [hT] at h
        simp at h

/-- C6: collaborator failures are contained.  For every request and every
collaborator behaviour (including failing dispatch), nothing escapes past the
outer catch of the handler; and when the translation collaborator fails,
every dispatch call in the trace is the courtesy reply — no outbound
translated reply is dispatched for the event. -/
theorem collaborator_failures_contained (env : Env) (col : Collab) (hm : HmacFn)
    (req : Request) :
    (outerResult env col hm req).2 = false
    ∧ ((∀ s, col.translateResult s = none) →
        ∀ pid rcpt b, Event.sendCall pid rcpt b ∈ postWebhook env col hm req →
          b = restrictedServiceText) := by
  refine ⟨rfl, fun hT pid rcpt b hmem => ?_⟩
  simp only [postWebhook, outerResult, List.mem_cons] at hmem
  rcases hmem with hmem | hmem
  · exact absurd hmem (by simp)
  · unfold tryBody at hmem
    split at hmem
    · simp at hmem
    · split at hmem
      · simp at hmem
      · split at hmem
        · split at hmem
          · simp at hmem
          · split at hmem
            · simp at hmem
            · split at hmem
              · split at hmem
                · simp at hmem
                · split at hmem
                  · split at hmem
                    · simp at hmem
                    · simp [sendMessage] at hmem
                      exact hmem.2.2
                  · exact absurd hmem
                      (innerTry_no_send_on_translate_failure col _ _ _ hT pid rcpt b)
              · split at hmem
                · simp at hmem
                · simp at hmem
        · simp at hmem

/-- Witness for C6: with an always-failing translation collaborator and the
denied-sender request, nothing escapes the handler and the only dispatch call
in the trace carries the restricted-service text. -/
theorem collaborator_failures_contained_w :
    (outerResult envDev colNoTranslate hmacFix req19998).2 = false
    ∧ "Sorry, this translation service is currently restricted to authorized users only."
        = restrictedServiceText :=
  ⟨(collaborator_failures_contained envDev colNoTranslate hmacFix req19998).1,
   (collaborator_failures_contained envDev colNoTranslate hmacFix req19998).2
     (fun _ => rfl) "123456789" "19998887777"
     "Sorry, this translation service is currently restricted to authorized users only."
     (by decide)⟩

/-- C7: for every request whose first change carries a statuses sequence and
no messages sequence, the handler trace is exactly the acknowledgement —
zero translation calls and zero dispatch calls — for every configuration,
signature header and collaborator behaviour. -/
theorem status_update_no_collaborator_calls (env : Env) (col : Collab) (hm : HmacFn)
    (req : Request) (e : Entry) (es : List Entry) (c : Change) (cs : List Change)
    (sts : List String)
    (hent : req.body.entry = e :: es) (hch : e.changes = c :: cs)
    (hmsgs : c.value.messages = none) (hsts : c.value.statuses = some sts) :
    postWebhook env col hm req = [Event.ack] := by
  unfold postWebhook outerResult tryBody
  by_cases hv : validationOk req
  · simp only [hv, Bool.not_true, Bool.false_eq_true, if_false]
    cases hsb : signatureBlock env hm req with
    | stop => rfl
    | proceed =>
      by_cases ho : req.body.object == some "whatsapp_business_account"
      · simp [ho, hent, hch, hmsgs, hsts]
      · simp [ho]
  · simp [hv]

/-- Witness for C7: the concrete status-update request produces the bare
acknowledgement trace in the shipped production configuration. -/
theorem status_update_no_collaborator_calls_w :
    postWebhook envProd colOk hmacFix reqStatus = [Event.ack] :=
  status_update_no_collaborator_calls envProd colOk hmacFix reqStatus
    { changes := [{ value := valueStatus }] } [] { value := valueStatus } []
    ["delivered"] rfl rfl rfl rfl

/-- C8 (amended): a message whose text.body is MISSING is rejected by the
`exists()` validator: validation fails and the handler performs no further
processing, so no such payload reaches the translation call.  The
empty-string half of the original claim does not hold: `exists()` only
requires the value to be defined, so an empty-string body passes validation
and is translated (see the counterexample). -/
theorem missing_text_body_blocked (env : Env) (col : Collab) (hm : HmacFn)
    (req : Request) (m : Message) (hmem : m ∈ allMessages req.body)
    (hbody : m.text.bind TextObj.body = none) :
    validationOk req = false ∧ postWebhook env col hm req = [Event.ack] := by
  have hAll : (allMessages req.body).all
      (fun x => (x.text.bind TextObj.body).isSome) = false := by
    cases hA : (allMessages req.body).all
        (fun x => (x.text.bind TextObj.body).isSome) with
    | false => rfl
    | true =>
      have hx := List.all_eq_true.mp hA m hmem
      rw [hbody] at hx
      simp at hx
  have hv : validationOk req = false := by
    simp [validationOk, hAll]
  exact ⟨hv, by simp [postWebhook, outerResult, tryBody, hv]⟩

/-- Witness for the amended C8: the concrete request whose only message has
no text member fails validation and produces the bare acknowledgement. -/
theorem missing_text_body_blocked_w :
    validationOk reqNoText = false
    ∧ postWebhook envDev colOk hmacFix reqNoText = [Event.ack] :=
  missing_text_body_blocked envDev colOk hmacFix reqNoText
    (msgFrom "15551234567" none) (by decide) rfl

/-- C8 counterexample: a message whose text.body is the EMPTY STRING passes
the `exists()` validators (they only require the value to be defined) and
reaches the translation collaborator: the trace of the concrete request
contains a translation call with empty text. -/
theorem empty_text_reaches_translation :
    validationOk reqEmptyText = true
    ∧ Event.translateCall "" ∈ postWebhook envDev colOk hmacFix reqEmptyText := by
  decide

end WT
